import Mathlib

/-!
Verification of the discovery-and-verification pipeline of the
Juridica-News scraping service
(`src/backend/services/scraping/corte_constitucional_extractor.py` and
`src/backend/services/scraping/download_single.py`).

The Python source is shallowly embedded: strings are Lean `String`
(Python text handled here is ASCII, so `bytes` bodies are also modelled
as `String`, byte length = character length), timestamps are `Int`
(Python `time.time()` floats, only compared by differences against the
TTL), dates are `Int` day numbers counted from a Monday epoch, so that
`d % 7` is exactly Python's `datetime.weekday()` (0 = Monday), and
network / filesystem effects are explicit data (probe oracles, response
records, lists of written / remaining paths).
-/

namespace JuridicaNews

/-! ## Python string primitives

Helpers reproducing the semantics of the Python `str` methods used by
the extractor: `lower`, `upper`, `strip`, `startswith`, `endswith`,
substring containment (`in`), `replace`, `split` and `zfill`.  They are
written structurally recursive so that concrete instances evaluate
inside the kernel. -/

def pyLower (s : String) : String := String.mk (s.data.map Char.toLower)

def pyUpper (s : String) : String := String.mk (s.data.map Char.toUpper)

def isSpaceChar (c : Char) : Bool :=
  c = ' ' || c = '\t' || c = '\n' || c = '\r'

/-- Python `str.strip()` (restricted to the ASCII whitespace that can
occur in the scraped rows). -/
def pyStrip (s : String) : String :=
  String.mk (((s.data.dropWhile isSpaceChar).reverse.dropWhile isSpaceChar).reverse)

/-- Python slicing `s[:n]`. -/
def pyTake (n : Nat) (s : String) : String := String.mk (s.data.take n)

def pyStartsWith (s p : String) : Bool := p.data.isPrefixOf s.data

def pyEndsWith (s p : String) : Bool := p.data.isSuffixOf s.data

def containsAux (sub : List Char) : List Char → Bool
  | [] => sub.isEmpty
  | c :: rest => sub.isPrefixOf (c :: rest) || containsAux sub rest

/-- Python `sub in s` (substring containment). -/
def pyContains (s sub : String) : Bool := containsAux sub.data s.data

/-- Replacement loop for Python `str.replace`.  `fuel` is a structural
bound; `pyReplace` supplies `s.length`, which is always sufficient since
every step consumes at least one character of a non-empty pattern's
subject. -/
def replaceFuel (pat rep : List Char) : Nat → List Char → List Char
  | _, [] => []
  | 0, s => s
  | fuel + 1, c :: rest =>
    if pat.isPrefixOf (c :: rest) then
      rep ++ replaceFuel pat rep fuel (List.drop pat.length (c :: rest))
    else
      c :: replaceFuel pat rep fuel rest

/-- Python `s.replace(pat, rep)` (for the non-empty patterns used by the
source; an empty pattern leaves `s` unchanged here). -/
def pyReplace (s pat rep : String) : String :=
  if pat.data = [] then s
  else String.mk (replaceFuel pat.data rep.data s.data.length s.data)

/-- Python `s.split(sep)` for a one-character separator (the source only
splits on `"/"`). -/
def splitCharAux (sep : Char) : List Char → List Char → List (List Char)
  | [], acc => [acc.reverse]
  | c :: rest, acc =>
    if c = sep then acc.reverse :: splitCharAux sep rest []
    else splitCharAux sep rest (c :: acc)

def pySplitChar (s : String) (sep : Char) : List String :=
  (splitCharAux sep s.data []).map String.mk

/-- Python `s.zfill(width)` (no sign handling; the inputs are digit
strings). -/
def pyZfill (s : String) (width : Nat) : String :=
  if s.data.length < width then
    String.mk (List.replicate (width - s.data.length) '0' ++ s.data)
  else s

/-! ## `ExtractorConfig` constants and URL synthesis

From `ExtractorConfig` in `corte_constitucional_extractor.py`. -/

def BASE_URL : String := "https://www.corteconstitucional.gov.co"

def URL_CACHE_TTL : Int := 1800

def EXTENDED_SEARCH_DAYS : Nat := 8

def NORMAL_SEARCH_DAYS : Nat := 2

def MAX_ROW_PROCESSING : Nat := 50

/-- `ExtractorConfig.get_document_url`. -/
def get_document_url (sentence_id : String) (year : Nat) : String :=
  let normalized_id :=
    if pyStartsWith sentence_id "SU." then
      pyLower (pyReplace (pyReplace sentence_id "SU." "su") "/" "-")
    else
      pyReplace (pyLower sentence_id) "/" "-"
  BASE_URL ++ "/sentencias/" ++ toString year ++ "/" ++ normalized_id ++ ".rtf"

/-- `ExtractorConfig.get_html_url`. -/
def get_html_url (sentence_id : String) (year : Nat) : String :=
  BASE_URL ++ "/relatoria/" ++ toString year ++ "/" ++ pyReplace sentence_id "/" "-" ++ ".htm"

/-- `ExtractorConfig.normalize_filename`. -/
def normalize_filename (sentence_id : String) : String :=
  pyReplace (pyReplace sentence_id "/" "-") " " "_"

/-! ## Search-window generator (`_get_extraction_dates`)

A calendar date is modelled as an `Int` counting days from a Monday
epoch, so `d % 7` is Python's `datetime.weekday()` (0 = Monday, …,
5 = Saturday, 6 = Sunday) and subtracting `timedelta(days=1)` is `d - 1`.
The Spanish textual representations built per date play no role in the
window's shape and are functions of the date, so the generator is
modelled as returning the dates themselves. -/

/-- Python's `current_date.weekday() < 5` test. -/
def isBusinessDay (d : Int) : Bool := decide (d % 7 < 5)

/-- Number of backward steps from `d` to the nearest business day
(0 on Mon–Fri, 1 on Saturday, 2 on Sunday); termination measure only. -/
def backSteps (d : Int) : Nat := (d % 7 - 4).toNat

/-- The `while days_added < days_to_search` loop of
`_get_extraction_dates`: walk backward one day at a time, collecting a
date whenever it is a business day, until `remaining` dates are
collected. -/
def datesLoop (current : Int) (remaining : Nat) : List Int :=
  if remaining = 0 then []
  else if h : isBusinessDay current then
    current :: datesLoop (current - 1) (remaining - 1)
  else
    datesLoop (current - 1) remaining
termination_by 3 * remaining + backSteps current
decreasing_by
  · have hb : backSteps (current - 1) ≤ 2 := by
      have h7 := Int.emod_lt_of_pos (current - 1) (by norm_num : (0 : Int) < 7)
      unfold backSteps
      omega
    omega
  · have h5 : ¬ current % 7 < 5 := by simpa [isBusinessDay] using h
    have heq : (current - 1) % 7 = current % 7 - 1 := by
      rw [Int.sub_emod]
      have h1 : (1 : Int) % 7 = 1 := by decide
      rw [h1]
      exact Int.emod_eq_of_lt (by omega) (by omega)
    have hlt : backSteps (current - 1) < backSteps current := by
      unfold backSteps
      rw [heq]
      omega
    omega

/-- `_get_extraction_dates`: number of business days taken is
`EXTENDED_SEARCH_DAYS` (8) in extended mode, `NORMAL_SEARCH_DAYS` (2)
otherwise, starting from `today`. -/
def get_extraction_dates (today : Int) (extended_search : Bool) : List Int :=
  datesLoop today (if extended_search then EXTENDED_SEARCH_DAYS else NORMAL_SEARCH_DAYS)

/-! ## Live URL probe (`_verify_document_url`)

The outcome of the single `requests.head` call is the input: either a
response (status plus raw `content-type` header, `""` when the header is
absent, matching `headers.get('content-type', '')`), or one of the three
exception classes handled by the source. -/

inductive ProbeOutcome where
  | response (status : Nat) (contentType : String)
  | timeout
  | connectionError
  | otherError
deriving DecidableEq

/-- The `valid_types` allow-list of `_verify_document_url`. -/
def VALID_TYPES : List String :=
  ["application/rtf", "application/vnd.openxmlformats",
   "application/msword", "application/pdf",
   "application/octet-stream"]

/-- `_verify_document_url`: non-200 statuses are invalid; otherwise the
lower-cased declared content type must not mention HTML and must either
mention an allow-listed type or be empty; every probe exception yields
`false`. -/
def verify_document_url : ProbeOutcome → Bool
  | .response status rawContentType =>
    if status ≠ 200 then false
    else
      let content_type := pyLower rawContentType
      !pyContains content_type "text/html" &&
        (VALID_TYPES.any (fun vtype => pyContains content_type vtype) ||
          content_type = "")
  | .timeout => false
  | .connectionError => false
  | .otherError => false

/-! ## Verification cache (`_verify_document_url_cached`,
`_cleanup_expired_cache`)

`self._url_cache` is a Python dict from URL to
`{'valid': bool, 'timestamp': float}`; it is modelled as an association
list with unique keys maintained by the dict operations.  The live probe
is abstracted to an oracle `probe : Int → String → Bool` of (time, url),
and the number of live probes a call performs is returned explicitly. -/

structure CacheEntry where
  valid : Bool
  timestamp : Int
deriving DecidableEq

abbrev Cache : Type := List (String × CacheEntry)

/-- Dict read `self._url_cache[url]` guarded by `url in self._url_cache`. -/
def lookupC (c : Cache) (url : String) : Option CacheEntry :=
  (List.find? (fun kv => kv.1 = url) c).map (fun kv => kv.2)

/-- Dict deletion `del self._url_cache[url]`. -/
def eraseC (c : Cache) (url : String) : Cache :=
  List.filter (fun kv => !(kv.1 = url : Bool)) c

/-- Dict write `self._url_cache[url] = entry`. -/
def insertC (c : Cache) (url : String) (e : CacheEntry) : Cache :=
  if List.any c (fun kv => kv.1 = url) then
    List.map (fun kv => if kv.1 = url then (url, e) else kv) c
  else
    List.append c [(url, e)]

/-- `_cleanup_expired_cache`: collect the keys whose age is at least the
TTL, then delete each of them. -/
def cleanup_expired_cache (ttl now : Int) (c : Cache) : Cache :=
  let expired_keys :=
    (List.filter (fun kv => decide (ttl ≤ now - kv.2.timestamp)) c).map
      (fun kv => kv.1)
  expired_keys.foldl (fun acc key => eraseC acc key) c

/-- Result of one `_verify_document_url_cached` call: the returned
boolean, the cache afterwards, and how many live probes were issued. -/
structure VerifyResult where
  valid : Bool
  cache : Cache
  probes : Nat
deriving DecidableEq

/-- `_verify_document_url_cached`: a live (age < TTL) hit returns the
cached validity with no probe; an expired hit is deleted; on the miss
path the cache is swept only when it holds more than 100 entries, then
one live probe runs and its verdict is stored under the current time. -/
def verify_document_url_cached (probe : Int → String → Bool) (ttl now : Int)
    (c : Cache) (url : String) : VerifyResult :=
  match lookupC c url with
  | some cached_data =>
    if now - cached_data.timestamp < ttl then
      ⟨cached_data.valid, c, 0⟩
    else
      let c1 := eraseC c url
      let c2 := if 100 < c1.length then cleanup_expired_cache ttl now c1 else c1
      let is_valid := probe now url
      ⟨is_valid, insertC c2 url ⟨is_valid, now⟩, 1⟩
  | none =>
    let c2 := if 100 < c.length then cleanup_expired_cache ttl now c else c
    let is_valid := probe now url
    ⟨is_valid, insertC c2 url ⟨is_valid, now⟩, 1⟩

/-! ## Store-size check (`_check_if_database_empty`) and mode decision

The local stats API call either yields a response (status and the
`data.total` count, 0 when the field is missing) or raises; both are
input data. -/

inductive ApiOutcome where
  | response (status : Nat) (total : Nat)
  | exn (msg : String)
deriving DecidableEq

/-- `_check_if_database_empty`: on HTTP 200 the store is "empty" when it
holds fewer than 5 documents; any other status and every exception
(unreachable API included) report `False`. -/
def check_if_database_empty : ApiOutcome → Bool
  | .response status total =>
    if status = 200 then decide (total < 5) else false
  | .exn _ => false

/-- The mode decision of `extract_latest_sentences`:
`use_extended_search` starts `False` and is set from
`_check_if_database_empty()` only when the caller left
`check_database_empty` enabled.  `true` means extended-mode search. -/
def decide_search_mode (check_database_empty : Bool) (api : ApiOutcome) : Bool :=
  if check_database_empty then check_if_database_empty api else false

/-! ## Row extractor (`_extract_sentences_by_date`)

The four `sentence_patterns` regexes all have the shape
*literal prefix*, then `\d{1,4}`, then a slash-or-dash separator class,
then `\d{2,4}`, with `re.IGNORECASE` (the character class `[TCG]` is the
alternation of its three one-letter prefixes).  `re.findall(...)[0]` is
the leftmost match; since the separator class contains no digit, greedy
backtracking at a given
start position succeeds exactly when the full leading digit run after
the prefix has length 1–4, is followed by `/` or `-`, and at least two
digits follow the separator; the second digit group captures greedily up
to four digits.  `findFirstIdMatch` scans start positions left to
right, which yields exactly that leftmost match. -/

/-- Length of the leading run of decimal digits. -/
def digitRun : List Char → Nat
  | [] => 0
  | c :: rest => if c.isDigit then digitRun rest + 1 else 0

/-- Match `\d{1,4}`, slash-or-dash, `\d{2,4}` at the start of `s`,
returning the matched characters. -/
def matchNumberTail (s : List Char) : Option (List Char) :=
  let d1 := digitRun s
  if d1 = 0 || 4 < d1 then none
  else
    match s.drop d1 with
    | [] => none
    | sep :: rest2 =>
      if sep = '/' || sep = '-' then
        let d2 := digitRun rest2
        if d2 < 2 then none
        else some (s.take d1 ++ sep :: rest2.take (min 4 d2))
      else none

/-- Case-insensitive literal prefix match, returning the consumed
characters of `s` (original case, as `re.findall` captures them) and the
remainder. -/
def ciPrefixSplit : List Char → List Char → Option (List Char × List Char)
  | [], s => some ([], s)
  | _ :: _, [] => none
  | p :: ps, c :: cs =>
    if p.toLower = c.toLower then
      (ciPrefixSplit ps cs).map (fun pr => (c :: pr.1, pr.2))
    else none

/-- Try each alternative literal prefix of one regex at the current
start position. -/
def matchLitsAt : List (List Char) → List Char → Option (List Char)
  | [], _ => none
  | lit :: more, s =>
    match ciPrefixSplit lit s with
    | some (matched, rest) =>
      match matchNumberTail rest with
      | some tail => some (matched ++ tail)
      | none => matchLitsAt more s
    | none => matchLitsAt more s

/-- Leftmost match of one regex over the row text
(`re.findall(pattern, row_text, re.IGNORECASE)[0]`). -/
def findFirstIdMatch (lits : List (List Char)) : List Char → Option (List Char)
  | [] => none
  | c :: rest =>
    match matchLitsAt lits (c :: rest) with
    | some m => some m
    | none => findFirstIdMatch lits rest

/-- The ordered `sentence_patterns` list, each regex given by its
literal-prefix alternatives. -/
def SENTENCE_PATTERNS : List (List (List Char)) :=
  [ [ "SU.".data ],
    [ "SU-".data ],
    [ "T-".data, "C-".data, "G-".data ],
    [ "A-".data ] ]

/-- First pattern in order that has any match wins. -/
def firstMatchOfPatterns : List (List (List Char)) → List Char → Option (List Char)
  | [], _ => none
  | pat :: more, s =>
    match findFirstIdMatch pat s with
    | some m => some m
    | none => firstMatchOfPatterns more s

/-- The `sentence_number` computed for one row: first matching pattern's
leftmost match, upper-cased (`matches[0].upper()`); `none` when no
pattern matches. -/
def firstSentenceNumber (rowText : String) : Option String :=
  (firstMatchOfPatterns SENTENCE_PATTERNS rowText.data).map
    (fun m => String.mk (m.map Char.toUpper))

/-- The `date_patterns` list built by `_extract_sentences_by_date` from
the three textual representations of the target date (long Spanish
form, `DD/MM/YYYY`, `DD-MM-YYYY`), plus the slash variant of the long
form and the ISO form derived from the short one. -/
def buildDatePatterns (target_date_str target_date_short target_date_alt : String) :
    List String :=
  let base := [target_date_str, target_date_short, target_date_alt,
    pyReplace target_date_str " de " "/"]
  match pySplitChar target_date_short '/' with
  | [day, month, year] =>
    base ++ [year ++ "-" ++ pyZfill month 2 ++ "-" ++ pyZfill day 2]
  | _ => base

/-- Per-row body of the scan loop: strip the rendered text, skip empty
or short rows, skip rows matching no date pattern (case-insensitive
substring test), then look for a sentence number.  `none` means the row
contributes nothing. -/
def processRow (datePatterns : List String) (rawRowText : String) : Option String :=
  let row_text := pyStrip rawRowText
  if row_text = "" || row_text.length < 10 then none
  else if !(datePatterns.any (fun p => pyContains (pyLower row_text) (pyLower p))) then
    none
  else firstSentenceNumber row_text

/-- The `for i, row in enumerate(rows[...])` loop over one selector's
rows: accumulate sentence numbers in row order, returning early once
`limit` results are collected (the length test runs after each append,
as in the source). -/
def rowLoop (datePatterns : List String) (limit : Nat) :
    List String → List String → List String
  | [], acc => acc
  | row :: rest, acc =>
    match processRow datePatterns row with
    | none => rowLoop datePatterns limit rest acc
    | some sentence_number =>
      let acc2 := acc ++ [sentence_number]
      if limit ≤ acc2.length then acc2
      else rowLoop datePatterns limit rest acc2

/-- `_extract_sentences_by_date` restricted to one selector's row texts:
only the first `MAX_ROW_PROCESSING` rows are scanned
(`rows[:self.config.MAX_ROW_PROCESSING]`). -/
def extract_sentences_by_date (rows : List String)
    (target_date_str target_date_short target_date_alt : String)
    (limit : Nat) : List String :=
  rowLoop (buildDatePatterns target_date_str target_date_short target_date_alt)
    limit (rows.take MAX_ROW_PROCESSING) []

/-! ## Downloader (`download_document`, and `download_document` of
`download_single.py`)

The HTTP exchange is input data: `status` (with `raise_for_status`
raising, hence returning `None`, for statuses ≥ 400), the raw
`content-type` header (`""` when absent) and the body.  The body is
ASCII text here, so `response.content[:500].decode('utf-8',
errors='ignore')` is plain truncation and byte length equals character
length.  The outcome records the returned value, every path written
during the call, and the paths still on disk when it returns. -/

structure DownloadOutcome where
  result : Option String
  written : List String
  disk : List String
deriving DecidableEq

/-- The HTML sniff of `download_document`: declared type mentions HTML,
or the lower-cased 500-byte preview contains an HTML marker. -/
def sniff_is_html (rawContentType body : String) : Bool :=
  let content_type := pyLower rawContentType
  let content_preview := pyLower (pyTake 500 body)
  pyContains content_type "text/html" ||
    pyContains content_preview "<!doctype html" ||
    pyContains content_preview "<html"

/-- `CorteConstitucionalExtractor.download_document`.  The URL-suffix
guess places the file under `rtf/` whatever the guessed extension; only
the `PK` magic-byte branch moves it to `docx/`.  (`content[:10]`
followed by `startswith` is `startswith` on the whole body: both
signatures are shorter than 10 bytes.)  A final size under 100 bytes
deletes the file and reports absence. -/
def download_document (download_dir document_url sentence_number : String)
    (status : Nat) (rawContentType body : String) : DownloadOutcome :=
  if document_url = "" then ⟨none, [], []⟩
  else
    let rtf_dir := download_dir ++ "/rtf"
    let docx_dir := download_dir ++ "/docx"
    let safe_name := normalize_filename sentence_number
    let extension := if pyEndsWith document_url ".rtf" then ".rtf" else ".docx"
    let local_path := rtf_dir ++ "/" ++ safe_name ++ extension
    if 400 ≤ status then ⟨none, [], []⟩
    else if sniff_is_html rawContentType body then ⟨none, [], []⟩
    else
      let final_path :=
        if pyStartsWith body "PK" then docx_dir ++ "/" ++ safe_name ++ ".docx"
        else if pyStartsWith body "\x7b\\rtf" then rtf_dir ++ "/" ++ safe_name ++ ".rtf"
        else local_path
      let file_size := body.length
      if file_size < 100 then ⟨none, [final_path], []⟩
      else ⟨some final_path, [final_path], [final_path]⟩

/-- `download_document` of `download_single.py`: a single `downloads`
directory, extension guessed from the URL suffix (default `.rtf`), HTML
rejected on the declared type only, and the same 100-byte minimum. -/
def download_single_document (document_url document_id : String)
    (status : Nat) (rawContentType body : String) : DownloadOutcome :=
  let extension :=
    if pyEndsWith document_url ".rtf" then ".rtf"
    else if pyEndsWith document_url ".docx" then ".docx"
    else ".rtf"
  let safe_id := pyReplace document_id "/" "-"
  let local_path :=
    "../../../documents/scraping/downloads" ++ "/" ++ safe_id ++ extension
  if 400 ≤ status then ⟨none, [], []⟩
  else if pyContains (pyLower rawContentType) "text/html" then ⟨none, [], []⟩
  else if body.length < 100 then ⟨none, [local_path], []⟩
  else ⟨some local_path, [local_path], [local_path]⟩

/-! ## Supporting lemmas: the search window -/

theorem datesLoop_length (current : Int) (remaining : Nat) :
    (datesLoop current remaining).length = remaining := by
  induction current, remaining using datesLoop.induct with
  | case1 c => simp [datesLoop]
  | case2 c r h hb ih =>
    rw [datesLoop]
    simp [h, hb, ih]
    omega
  | case3 c r h hb ih =>
    rw [datesLoop]
    simp [h, hb, ih]

theorem datesLoop_mem (current : Int) (remaining : Nat) :
    ∀ d ∈ datesLoop current remaining, isBusinessDay d = true ∧ d ≤ current := by
  induction current, remaining using datesLoop.induct with
  | case1 c =>
    simp [datesLoop]
  | case2 c r h hb ih =>
    rw [datesLoop]
    simp only [if_neg h, dif_pos hb, List.mem_cons]
    rintro d (rfl | hd)
    · exact ⟨hb, le_refl d⟩
    · rcases ih d hd with ⟨h1, h2⟩
      exact ⟨h1, by omega⟩
  | case3 c r h hb ih =>
    rw [datesLoop]
    simp only [if_neg h, dif_neg hb]
    intro d hd
    rcases ih d hd with ⟨h1, h2⟩
    exact ⟨h1, by omega⟩

theorem datesLoop_sorted (current : Int) (remaining : Nat) :
    (datesLoop current remaining).Pairwise (fun a b => b < a) := by
  induction current, remaining using datesLoop.induct with
  | case1 c =>
    simp [datesLoop]
  | case2 c r h hb ih =>
    rw [datesLoop]
    simp only [if_neg h, dif_pos hb]
    refine List.Pairwise.cons ?_ ih
    intro d hd
    have := (datesLoop_mem _ _ d hd).2
    omega
  | case3 c r h hb ih =>
    rw [datesLoop]
    simpa only [if_neg h, dif_neg hb] using ih

/-! ## Supporting lemmas: the verification cache -/

theorem lookupC_eq_none_iff (c : Cache) (url : String) :
    lookupC c url = none ↔ ∀ kv ∈ c, kv.1 ≠ url := by
  unfold lookupC
  simp [List.find?_eq_none]

theorem lookupC_append_self (c : Cache) (url : String) (e : CacheEntry)
    (h : lookupC c url = none) :
    lookupC (List.append c [(url, e)]) url = some e := by
  rw [lookupC_eq_none_iff] at h
  unfold lookupC
  induction c with
  | nil => simp
  | cons hd tl ih =>
    have hk : ¬ hd.1 = url := h hd (List.mem_cons_self hd tl)
    simp only [List.append_eq, List.cons_append, List.find?, hk, decide_False]
    exact ih (fun kv hkv => h kv (List.mem_cons_of_mem hd hkv))

theorem lookupC_eraseC_self (c : Cache) (url : String) :
    lookupC (eraseC c url) url = none := by
  rw [lookupC_eq_none_iff]
  intro kv hkv
  have := List.mem_filter.mp hkv
  simpa using this.2

theorem foldl_eraseC_eq_filter (ks : List String) (c : Cache) :
    ks.foldl (fun acc key => eraseC acc key) c
      = c.filter (fun kv => ks.all (fun k => !(kv.1 = k : Bool))) := by
  induction ks generalizing c with
  | nil => simp
  | cons k ks ih =>
    simp only [List.foldl_cons]
    rw [ih]
    unfold eraseC
    rw [List.filter_filter]
    apply List.filter_congr
    intro kv _
    simp only [List.all_cons]
    rw [Bool.and_comm]

theorem mem_cleanup (ttl now : Int) (c : Cache) (kv : String × CacheEntry)
    (h : kv ∈ cleanup_expired_cache ttl now c) : kv ∈ c := by
  unfold cleanup_expired_cache at h
  rw [foldl_eraseC_eq_filter] at h
  exact (List.mem_filter.mp h).1

theorem lookupC_cleanup_none (ttl now : Int) (c : Cache) (url : String)
    (h : lookupC c url = none) :
    lookupC (cleanup_expired_cache ttl now c) url = none := by
  rw [lookupC_eq_none_iff] at h ⊢
  intro kv hkv
  exact h kv (mem_cleanup ttl now c kv hkv)

theorem keys_nodup_unique (c : Cache) (h : (c.map Prod.fst).Nodup)
    (kv kv' : String × CacheEntry) (h1 : kv ∈ c) (h2 : kv' ∈ c)
    (hk : kv.1 = kv'.1) : kv = kv' := by
  induction c with
  | nil => cases h1
  | cons hd tl ih =>
    rw [List.map_cons, List.nodup_cons] at h
    rcases List.mem_cons.mp h1 with rfl | h1' <;> rcases List.mem_cons.mp h2 with rfl | h2'
    · rfl
    · exact absurd (hk ▸ List.mem_map_of_mem Prod.fst h2') h.1
    · exact absurd (hk ▸ List.mem_map_of_mem Prod.fst h1') h.1
    · exact ih h.2 h1' h2'

theorem cleanup_eq_ttl_filter (ttl now : Int) (c : Cache)
    (hnd : (c.map Prod.fst).Nodup) :
    cleanup_expired_cache ttl now c
      = c.filter (fun kv => decide (now - kv.2.timestamp < ttl)) := by
  unfold cleanup_expired_cache
  rw [foldl_eraseC_eq_filter]
  apply List.filter_congr
  intro kv hkv
  by_cases hexp : ttl ≤ now - kv.2.timestamp
  · have hmem : kv.1 ∈ (List.filter (fun kv => decide (ttl ≤ now - kv.2.timestamp)) c).map
        (fun kv => kv.1) :=
      List.mem_map_of_mem _ (List.mem_filter.mpr ⟨hkv, by simpa using hexp⟩)
    have hall : ¬ ((List.filter (fun kv => decide (ttl ≤ now - kv.2.timestamp)) c).map
        (fun kv => kv.1)).all (fun k => !(kv.1 = k : Bool)) = true := by
      intro hcontra
      have := List.all_eq_true.mp hcontra kv.1 hmem
      simp at this
    simp only [Bool.not_eq_true] at hall
    rw [hall]
    simp
    omega
  · have hall : ((List.filter (fun kv => decide (ttl ≤ now - kv.2.timestamp)) c).map
        (fun kv => kv.1)).all (fun k => !(kv.1 = k : Bool)) = true := by
      rw [List.all_eq_true]
      intro k hkmem
      rcases List.mem_map.mp hkmem with ⟨kv', hkv', rfl⟩
      rcases List.mem_filter.mp hkv' with ⟨hkv'c, hkv'exp⟩
      by_cases heq : kv.1 = kv'.1
      · have := keys_nodup_unique c hnd kv kv' hkv hkv'c heq
        subst this
        simp at hkv'exp
        omega
      · simpa using heq
    rw [hall]
    simp
    omega

theorem insertC_append (c : Cache) (url : String) (e : CacheEntry)
    (h : lookupC c url = none) :
    insertC c url e = List.append c [(url, e)] := by
  rw [lookupC_eq_none_iff] at h
  unfold insertC
  have hany : List.any c (fun kv => kv.1 = url) = false := by
    rw [Bool.eq_false_iff]
    intro hcontra
    rcases List.any_eq_true.mp hcontra with ⟨kv, hkv, hkv2⟩
    exact h kv hkv (by simpa using hkv2)
  rw [hany]
  simp

theorem lookupC_branch_none (ttl now : Int) (c : Cache) (url : String)
    (h : lookupC c url = none) :
    lookupC (if 100 < c.length then cleanup_expired_cache ttl now c else c) url = none := by
  by_cases hlen : 100 < c.length
  · rw [if_pos hlen]
    exact lookupC_cleanup_none ttl now c url h
  · rw [if_neg hlen]
    exact h

theorem verifyCached_miss (probe : Int → String → Bool) (ttl now : Int)
    (c : Cache) (url : String) (h : lookupC c url = none) :
    verify_document_url_cached probe ttl now c url
      = ⟨probe now url,
         List.append (if 100 < c.length then cleanup_expired_cache ttl now c else c)
           [(url, ⟨probe now url, now⟩)],
         1⟩ := by
  unfold verify_document_url_cached
  rw [h]
  dsimp only
  rw [insertC_append _ _ _ (lookupC_branch_none ttl now c url h)]

theorem verifyCached_hit (probe : Int → String → Bool) (ttl now : Int)
    (c : Cache) (url : String) (e : CacheEntry)
    (hfound : lookupC c url = some e) (hlive : now - e.timestamp < ttl) :
    verify_document_url_cached probe ttl now c url = ⟨e.valid, c, 0⟩ := by
  unfold verify_document_url_cached
  rw [hfound]
  dsimp only
  rw [if_pos hlive]

theorem verifyCached_expired (probe : Int → String → Bool) (ttl now : Int)
    (c : Cache) (url : String) (e : CacheEntry)
    (hfound : lookupC c url = some e) (hexp : ¬ now - e.timestamp < ttl) :
    verify_document_url_cached probe ttl now c url
      = ⟨probe now url,
         List.append
           (if 100 < (eraseC c url).length then
             cleanup_expired_cache ttl now (eraseC c url)
            else eraseC c url)
           [(url, ⟨probe now url, now⟩)],
         1⟩ := by
  unfold verify_document_url_cached
  rw [hfound]
  dsimp only
  rw [if_neg hexp]
  rw [insertC_append _ _ _ (lookupC_branch_none ttl now _ url (lookupC_eraseC_self c url))]

theorem lookupC_after_miss (probe : Int → String → Bool) (ttl now : Int)
    (c : Cache) (url : String) (h : lookupC c url = none) :
    lookupC (verify_document_url_cached probe ttl now c url).cache url
      = some ⟨probe now url, now⟩ := by
  rw [verifyCached_miss probe ttl now c url h]
  exact lookupC_append_self _ _ _ (lookupC_branch_none ttl now c url h)

/-! ## The claims -/

/-- Claim C1: for every fixed current date and mode flag,
`_get_extraction_dates` — a pure function of them here, hence
deterministic — returns a sequence of exactly `EXTENDED_SEARCH_DAYS = 8`
(extended) or `NORMAL_SEARCH_DAYS = 2` (normal) dates, all of them
business days (Monday–Friday), in strictly descending order walking
backward from `today`. -/
theorem c1_search_window (today : Int) (extended : Bool) :
    (get_extraction_dates today extended).length = (if extended then 8 else 2) ∧
    (∀ d ∈ get_extraction_dates today extended, isBusinessDay d = true ∧ d ≤ today) ∧
    (get_extraction_dates today extended).Pairwise (fun a b => b < a) := by
  refine ⟨?_, datesLoop_mem _ _, datesLoop_sorted _ _⟩
  unfold get_extraction_dates EXTENDED_SEARCH_DAYS NORMAL_SEARCH_DAYS
  cases extended <;> simp [datesLoop_length]

/-- Witness for C1 at `today = 3`, extended mode. -/
theorem c1_search_window_witness :
    (get_extraction_dates 3 true).length = (if true then 8 else 2) ∧
    (∀ d ∈ get_extraction_dates 3 true, isBusinessDay d = true ∧ d ≤ 3) ∧
    (get_extraction_dates 3 true).Pairwise (fun a b => b < a) :=
  c1_search_window 3 true

/-- Claim C2: starting from a cache with no entry for `url`, the first
call probes exactly once and returns the probe's verdict; a second call
within the TTL window performs no further probe (so the pair performs
at most one) and returns the same boolean with the cache untouched,
while a second call at or past TTL expiry performs exactly one more
probe and stores a fresh entry carrying the new timestamp. -/
theorem c2_cache_memoization (probe : Int → String → Bool) (ttl t1 t2 : Int)
    (c : Cache) (url : String) (hmiss : lookupC c url = none) :
    (verify_document_url_cached probe ttl t1 c url).probes = 1 ∧
    (verify_document_url_cached probe ttl t1 c url).valid = probe t1 url ∧
    (t2 - t1 < ttl →
      (verify_document_url_cached probe ttl t2
          (verify_document_url_cached probe ttl t1 c url).cache url).probes = 0 ∧
      (verify_document_url_cached probe ttl t2
          (verify_document_url_cached probe ttl t1 c url).cache url).valid =
        (verify_document_url_cached probe ttl t1 c url).valid ∧
      (verify_document_url_cached probe ttl t2
          (verify_document_url_cached probe ttl t1 c url).cache url).cache =
        (verify_document_url_cached probe ttl t1 c url).cache) ∧
    (ttl ≤ t2 - t1 →
      (verify_document_url_cached probe ttl t2
          (verify_document_url_cached probe ttl t1 c url).cache url).probes = 1 ∧
      lookupC (verify_document_url_cached probe ttl t2
          (verify_document_url_cached probe ttl t1 c url).cache url).cache url =
        some ⟨probe t2 url, t2⟩) := by
  have hfound := lookupC_after_miss probe ttl t1 c url hmiss
  refine ⟨?_, ?_, ?_, ?_⟩
  · rw [verifyCached_miss probe ttl t1 c url hmiss]
  · rw [verifyCached_miss probe ttl t1 c url hmiss]
  · intro hlive
    rw [verifyCached_hit probe ttl t2 _ url ⟨probe t1 url, t1⟩ hfound (by dsimp only; omega)]
    rw [verifyCached_miss probe ttl t1 c url hmiss]
    exact ⟨rfl, rfl, rfl⟩
  · intro hexp
    rw [verifyCached_expired probe ttl t2 _ url ⟨probe t1 url, t1⟩ hfound (by dsimp only; omega)]
    refine ⟨rfl, ?_⟩
    apply lookupC_append_self
    apply lookupC_branch_none
    apply lookupC_eraseC_self

/-- Witness for C2: empty cache, TTL 1800, calls at times 0 and 100. -/
theorem c2_cache_memoization_witness :
    (verify_document_url_cached (fun _ _ => true) 1800 0 ([] : Cache) "u").probes = 1 ∧
    (verify_document_url_cached (fun _ _ => true) 1800 0 ([] : Cache) "u").valid = true ∧
    ((100 : Int) - 0 < 1800 →
      (verify_document_url_cached (fun _ _ => true) 1800 100
          (verify_document_url_cached (fun _ _ => true) 1800 0 ([] : Cache) "u").cache
          "u").probes = 0 ∧
      (verify_document_url_cached (fun _ _ => true) 1800 100
          (verify_document_url_cached (fun _ _ => true) 1800 0 ([] : Cache) "u").cache
          "u").valid =
        (verify_document_url_cached (fun _ _ => true) 1800 0 ([] : Cache) "u").valid ∧
      (verify_document_url_cached (fun _ _ => true) 1800 100
          (verify_document_url_cached (fun _ _ => true) 1800 0 ([] : Cache) "u").cache
          "u").cache =
        (verify_document_url_cached (fun _ _ => true) 1800 0 ([] : Cache) "u").cache) ∧
    ((1800 : Int) ≤ 100 - 0 →
      (verify_document_url_cached (fun _ _ => true) 1800 100
          (verify_document_url_cached (fun _ _ => true) 1800 0 ([] : Cache) "u").cache
          "u").probes = 1 ∧
      lookupC (verify_document_url_cached (fun _ _ => true) 1800 100
          (verify_document_url_cached (fun _ _ => true) 1800 0 ([] : Cache) "u").cache
          "u").cache "u" =
        some ⟨true, 100⟩) :=
  c2_cache_memoization (fun _ _ => true) 1800 0 100 [] "u" (by decide)

/-- Claim C3: every failing probe outcome — timeout, connection error or
any other exception — makes `_verify_document_url` report the URL as
invalid; no failure yields a valid verdict, and the embedding is a total
function, so no exception reaches the caller. -/
theorem c3_probe_failure_invalid :
    verify_document_url .timeout = false ∧
    verify_document_url .connectionError = false ∧
    verify_document_url .otherError = false :=
  ⟨rfl, rfl, rfl⟩

/-- Claim C4: URL synthesis is pure and total (a Lean function); for
identifier "T-343/25" the document URL is the base followed by the
current year and "t-343-25.rtf" (lower-cased, slash to dash); for
"SU.045/25" the "SU." prefix becomes lower-case "su" with the dot
removed, giving "su045-25.rtf"; the HTML detail URL embeds the current
year and the identifier with "/" replaced by "-". -/
theorem c4_url_synthesis :
    (∀ year : Nat, get_document_url "T-343/25" year
        = BASE_URL ++ "/sentencias/" ++ toString year ++ "/" ++ "t-343-25" ++ ".rtf") ∧
    (∀ year : Nat, get_document_url "SU.045/25" year
        = BASE_URL ++ "/sentencias/" ++ toString year ++ "/" ++ "su045-25" ++ ".rtf") ∧
    (∀ year : Nat, get_html_url "T-343/25" year
        = BASE_URL ++ "/relatoria/" ++ toString year ++ "/" ++ "T-343-25" ++ ".htm") ∧
    pyEndsWith (get_document_url "T-343/25" 2025) "/2025/t-343-25.rtf" = true ∧
    pyEndsWith (get_document_url "SU.045/25" 2025) "/su045-25.rtf" = true := by
  refine ⟨?_, ?_, ?_, by decide, by decide⟩
  · intro year
    unfold get_document_url
    rw [if_neg (by decide : ¬ pyStartsWith "T-343/25" "SU." = true)]
    rw [show pyReplace (pyLower "T-343/25") "/" "-" = "t-343-25" from by decide]
  · intro year
    unfold get_document_url
    rw [if_pos (by decide : pyStartsWith "SU.045/25" "SU." = true)]
    rw [show pyLower (pyReplace (pyReplace "SU.045/25" "SU." "su") "/" "-") = "su045-25"
      from by decide]
  · intro year
    unfold get_html_url
    rw [show pyReplace "T-343/25" "/" "-" = "T-343-25" from by decide]

/-- Counterexample to C5 as stated: a store size of 0 — a small/empty
count — makes the decision step select EXTENDED mode, not normal mode. -/
theorem c5_counterexample_small_store_selects_extended :
    decide_search_mode true (.response 200 0) = true := by decide

/-- Claim C5 (amended): at the search-mode decision step an unreachable
store-size collaborator or a non-200 response yields normal-mode search
and is never fatal (the exception is absorbed into a boolean), while a
small/empty count (under 5) on HTTP 200 selects extended-mode search. -/
theorem c5_mode_decision (msg : String) (status total total' : Nat)
    (hs : status ≠ 200) (ht : total < 5) :
    decide_search_mode true (.exn msg) = false ∧
    decide_search_mode true (.response status total') = false ∧
    decide_search_mode true (.response 200 total) = true := by
  unfold decide_search_mode check_if_database_empty
  refine ⟨rfl, ?_, ?_⟩
  · simp [hs]
  · simp [ht]

/-- Witness for C5 (amended): connection failure, HTTP 500, and a count
of 0 on HTTP 200. -/
theorem c5_mode_decision_witness :
    decide_search_mode true (.exn "connection refused") = false ∧
    decide_search_mode true (.response 500 7) = false ∧
    decide_search_mode true (.response 200 0) = true :=
  c5_mode_decision "connection refused" 500 0 7 (by decide) (by decide)

/-- Counterexample to C6 as stated: a 2-byte body "PK" — a ZIP signature
that is not classified as HTML — is nevertheless not stored: it falls
under the 100-byte minimum, the written file is deleted and the call
reports absence. -/
theorem c6_counterexample_small_pk_not_stored :
    pyStartsWith "PK" "PK" = true ∧
    sniff_is_html "application/octet-stream" "PK" = false ∧
    (download_document "documents/scraping"
      "https://www.corteconstitucional.gov.co/sentencias/2025/t-1-25.rtf"
      "T-1/25" 200 "application/octet-stream" "PK").result = none ∧
    (download_document "documents/scraping"
      "https://www.corteconstitucional.gov.co/sentencias/2025/t-1-25.rtf"
      "T-1/25" 200 "application/octet-stream" "PK").disk = [] := by
  decide

/-- Claim C6 (amended): every downloaded body that begins with "PK", is
not classified as HTML, and reaches the 100-byte minimum is stored with
a ".docx" extension under the "docx/" subdirectory, regardless of the
transport-declared content type and of the URL's original suffix. -/
theorem c6_pk_stored_as_docx (dir url id ct body : String) (status : Nat)
    (hurl : ¬ url = "") (hstatus : status < 400)
    (hpk : pyStartsWith body "PK" = true)
    (hhtml : sniff_is_html ct body = false)
    (hsize : 100 ≤ body.length) :
    (download_document dir url id status ct body).result
      = some (dir ++ "/docx" ++ "/" ++ normalize_filename id ++ ".docx") ∧
    (download_document dir url id status ct body).disk
      = [dir ++ "/docx" ++ "/" ++ normalize_filename id ++ ".docx"] := by
  unfold download_document
  rw [if_neg hurl, if_neg (by omega : ¬ 400 ≤ status)]
  rw [if_neg (by simp [hhtml] : ¬ sniff_is_html ct body = true)]
  dsimp only
  rw [if_pos hpk, if_neg (by omega : ¬ body.length < 100)]
  exact ⟨rfl, rfl⟩

/-- Witness for C6 (amended): a 100-byte "PK" body declared
application/octet-stream, fetched from a ".rtf" URL. -/
theorem c6_pk_stored_as_docx_witness :
    (download_document "documents/scraping" "https://x/doc.rtf" "T-1/25" 200
        "application/octet-stream" (String.mk ('P' :: 'K' :: List.replicate 98 'a'))).result
      = some ("documents/scraping" ++ "/docx" ++ "/" ++ normalize_filename "T-1/25" ++ ".docx") ∧
    (download_document "documents/scraping" "https://x/doc.rtf" "T-1/25" 200
        "application/octet-stream" (String.mk ('P' :: 'K' :: List.replicate 98 'a'))).disk
      = [("documents/scraping" ++ "/docx" ++ "/" ++ normalize_filename "T-1/25" ++ ".docx")] :=
  c6_pk_stored_as_docx "documents/scraping" "https://x/doc.rtf" "T-1/25"
    "application/octet-stream" (String.mk ('P' :: 'K' :: List.replicate 98 'a')) 200
    (by decide) (by decide) (by decide) (by decide) (by decide)

/-- Claim C7: every download whose final written size is below the
100-byte minimum yields absence and leaves no file on disk, in both
`download_document` of the extractor and the one of
`download_single.py`. -/
theorem c7_small_download_rejected (dir url id ct body : String) (status : Nat)
    (url2 id2 ct2 body2 : String) (status2 : Nat)
    (hsize : body.length < 100) (hsize2 : body2.length < 100) :
    (download_document dir url id status ct body).result = none ∧
    (download_document dir url id status ct body).disk = [] ∧
    (download_single_document url2 id2 status2 ct2 body2).result = none ∧
    (download_single_document url2 id2 status2 ct2 body2).disk = [] := by
  refine ⟨?_, ?_, ?_, ?_⟩
  · unfold download_document
    dsimp only
    split_ifs <;> rfl
  · unfold download_document
    dsimp only
    split_ifs <;> rfl
  · unfold download_single_document
    dsimp only
    split_ifs <;> rfl
  · unfold download_single_document
    dsimp only
    split_ifs <;> rfl

/-- Witness for C7: a 50-byte body. -/
theorem c7_small_download_rejected_witness :
    (download_document "documents/scraping" "https://x/t-1-25.rtf" "T-1/25" 200
        "application/rtf" (String.mk (List.replicate 50 'z'))).result = none ∧
    (download_document "documents/scraping" "https://x/t-1-25.rtf" "T-1/25" 200
        "application/rtf" (String.mk (List.replicate 50 'z'))).disk = [] ∧
    (download_single_document "https://x/t-1-25.rtf" "T-1/25" 200
        "application/rtf" (String.mk (List.replicate 50 'z'))).result = none ∧
    (download_single_document "https://x/t-1-25.rtf" "T-1/25" 200
        "application/rtf" (String.mk (List.replicate 50 'z'))).disk = [] :=
  c7_small_download_rejected "documents/scraping" "https://x/t-1-25.rtf" "T-1/25"
    "application/rtf" (String.mk (List.replicate 50 'z')) 200
    "https://x/t-1-25.rtf" "T-1/25" "application/rtf" (String.mk (List.replicate 50 'z')) 200
    (by decide) (by decide)

/-- Claim C8: on a miss with the cache at or under the 100-entry
threshold the sweep does not run — every existing entry, expired or not,
is still present and unchanged, with only the fresh entry appended — and
when the sweep does run it is a pure TTL filter: with the dict's
unique-key invariant it removes exactly the entries whose age is at
least the TTL and keeps every younger entry in place. -/
theorem c8_sweep (probe : Int → String → Bool) (ttl now : Int)
    (c : Cache) (url : String)
    (hmiss : lookupC c url = none) (hsize : c.length ≤ 100)
    (hnd : (c.map Prod.fst).Nodup) :
    (verify_document_url_cached probe ttl now c url).cache
      = List.append c [(url, ⟨probe now url, now⟩)] ∧
    cleanup_expired_cache ttl now c
      = c.filter (fun kv => decide (now - kv.2.timestamp < ttl)) := by
  constructor
  · rw [verifyCached_miss probe ttl now c url hmiss]
    rw [if_neg (by omega)]
  · exact cleanup_eq_ttl_filter ttl now c hnd

/-- Witness for C8: one expired entry ("a", age 2000 ≥ TTL 1800) that the
no-sweep miss path keeps, and that the sweep itself would remove. -/
theorem c8_sweep_witness :
    (verify_document_url_cached (fun _ _ => false) 1800 2000
        [("a", ⟨true, 0⟩)] "b").cache
      = List.append [("a", ⟨true, 0⟩)] [("b", ⟨false, 2000⟩)] ∧
    cleanup_expired_cache 1800 2000 [("a", ⟨true, 0⟩)]
      = List.filter (fun kv => decide ((2000 : Int) - kv.2.timestamp < 1800))
          [("a", ⟨true, 0⟩)] :=
  c8_sweep (fun _ _ => false) 1800 2000 [("a", ⟨true, 0⟩)] "b"
    (by decide) (by decide) (by decide)

/-- Claim C9: a row whose (stripped) text matches one of the target
date's textual representations case-insensitively but yields no match
for any identifier pattern contributes zero results: the scan of the
remaining rows proceeds exactly as if the row were absent, and the
embedding is total, so no error is raised. -/
theorem c9_row_without_identifier_skipped (datePatterns : List String) (limit : Nat)
    (row : String) (rest acc : List String)
    (hdate : (datePatterns.any fun p => pyContains (pyLower (pyStrip row)) (pyLower p)) = true)
    (hid : firstSentenceNumber (pyStrip row) = none) :
    rowLoop datePatterns limit (row :: rest) acc = rowLoop datePatterns limit rest acc := by
  have hnone : processRow datePatterns row = none := by
    unfold processRow
    dsimp only
    split_ifs with h1 h2
    · rfl
    · exact absurd h2 (by simp [hdate])
    · exact hid
  rw [rowLoop, hnone]

/-- Witness for C9: a row containing the date text "04/09/2025" but no
recognizable identifier, scanned ahead of one further row. -/
theorem c9_row_without_identifier_witness :
    rowLoop (buildDatePatterns "4 de septiembre de 2025" "04/09/2025" "04-09-2025") 5
        ("Publicado el 04/09/2025 - auto sin numero" :: ["otra fila"]) []
      = rowLoop (buildDatePatterns "4 de septiembre de 2025" "04/09/2025" "04-09-2025") 5
          ["otra fila"] [] :=
  c9_row_without_identifier_skipped
    (buildDatePatterns "4 de septiembre de 2025" "04/09/2025" "04-09-2025") 5
    "Publicado el 04/09/2025 - auto sin numero" ["otra fila"] []
    (by decide) (by decide)

/-- Claim C10 (implicit): when the leading bytes match neither "PK" nor
the RTF signature, the file is written under the "rtf/" subdirectory
even though a URL not ending in ".rtf" makes the guessed extension
".docx" — a ".docx"-named file placed under "rtf/"; if it also meets
the size minimum, that is the returned path. -/
theorem c10_unknown_signature_kept_in_rtf_dir (dir url id ct body : String) (status : Nat)
    (hurl : ¬ url = "") (hstatus : status < 400)
    (hhtml : sniff_is_html ct body = false)
    (hpk : pyStartsWith body "PK" = false)
    (hrtf : pyStartsWith body "\x7b\\rtf" = false)
    (hsuffix : pyEndsWith url ".rtf" = false) :
    (download_document dir url id status ct body).written
      = [dir ++ "/rtf" ++ "/" ++ normalize_filename id ++ ".docx"] ∧
    (100 ≤ body.length →
      (download_document dir url id status ct body).result
        = some (dir ++ "/rtf" ++ "/" ++ normalize_filename id ++ ".docx")) := by
  unfold download_document
  rw [if_neg hurl, if_neg (by omega : ¬ 400 ≤ status)]
  rw [if_neg (by simp [hhtml] : ¬ sniff_is_html ct body = true)]
  dsimp only
  rw [if_neg (show ¬ pyStartsWith body "PK" = true by simp [hpk])]
  rw [if_neg (show ¬ pyStartsWith body "\x7b\\rtf" = true by simp [hrtf])]
  rw [if_neg (show ¬ pyEndsWith url ".rtf" = true by simp [hsuffix])]
  constructor
  · by_cases hb : body.length < 100
    · rw [if_pos hb]
    · rw [if_neg hb]
  · intro hs
    rw [if_neg (by omega : ¬ body.length < 100)]

/-- Witness for C10: a 100-byte body of "z" bytes from a URL without an
".rtf" suffix lands as a ".docx"-named file under "rtf/". -/
theorem c10_unknown_signature_witness :
    (download_document "documents/scraping" "https://x/doc" "T-1/25" 200
        "application/octet-stream" (String.mk (List.replicate 100 'z'))).written
      = ["documents/scraping" ++ "/rtf" ++ "/" ++ normalize_filename "T-1/25" ++ ".docx"] ∧
    (100 ≤ (String.mk (List.replicate 100 'z')).length →
      (download_document "documents/scraping" "https://x/doc" "T-1/25" 200
          "application/octet-stream" (String.mk (List.replicate 100 'z'))).result
        = some ("documents/scraping" ++ "/rtf" ++ "/" ++ normalize_filename "T-1/25" ++ ".docx")) :=
  c10_unknown_signature_kept_in_rtf_dir "documents/scraping" "https://x/doc" "T-1/25"
    "application/octet-stream" (String.mk (List.replicate 100 'z')) 200
    (by decide) (by decide) (by decide) (by decide) (by decide) (by decide)

end JuridicaNews
